import Mathlib

/-!
Shallow embedding of `src/engine.py` (the tk-maya engine bootstrap).

The embedded code consists of:

* `on_scene_event_cb` (src lines 28-97): the scene-event transition
  controller, together with `create_tank_disabled_menu` (lines 114-123);
* the `MayaEngine` queue: `add_to_queue` (lines 307-316),
  `report_progress` (lines 318-326) and `execute_queue` (lines 328-362).

External collaborators (the `tank.platform` framework, pymel / Maya UI
calls) are modelled at their call boundary: each fallible call made by
`on_scene_event_cb` (`tank.tank_from_path`, `tk.context_from_path`,
`tank.platform.start_engine`) is an `Except PyExc _` value supplied by an
environment record `Env`, and every observable side effect (menu
creation / deletion, `displayInfo` / `displayError`, engine destruction
and construction, `scriptJob` registration, progress-bar operations) is
recorded both in an explicit state record and in an event trace.

Contexts are opaque values supporting equality, so everything is
parametric in a type `Ctx` with `DecidableEq`.
-/

/-- Python exceptions relevant to `on_scene_event_cb`: `tank.TankError`
(caught at the `tank_from_path` call site, src line 55),
`tank.TankEngineInitError` (caught at the `start_engine` call site, src
line 78) and any other exception kind (reaching the generic
`except Exception` at src line 89).  `kind` is the exception type's
printed name, `msg` its message. -/
inductive PyExc where
  | tankError (msg : String)
  | tankEngineInitError (msg : String)
  | other (kind : String) (msg : String)
deriving DecidableEq, Repr

/-- The printed exception type name (`exc_type` at src line 94). -/
def PyExc.kindName : PyExc → String
  | .tankError _ => "tank.TankError"
  | .tankEngineInitError _ => "tank.TankEngineInitError"
  | .other k _ => k

/-- The exception message (`exc_value` at src line 94). -/
def PyExc.message : PyExc → String
  | .tankError m => m
  | .tankEngineInitError m => m
  | .other _ m => m

/-- The behaviour of the host and of the external tank API during one run
of `on_scene_event_cb`:

* `sceneName`: result of `pm.sceneName()` (src line 46); `""` for a new
  unsaved scene;
* `tankFromPath`: result of `tank.tank_from_path(new_path)` (src line 54);
* `contextFromPath`: result of `tk.context_from_path(new_path,
  prev_context)` (src line 61);
* `startEngine`: result of `tank.platform.start_engine(engine_name, tk,
  ctx)` (src line 77);
* `tracebackText`: the text `traceback.format_tb` produces for the
  current exception (src line 96). -/
structure Env (Ctx : Type) where
  sceneName : String
  tankFromPath : Except PyExc Unit
  contextFromPath : Except PyExc Ctx
  startEngine : Except PyExc Unit
  tracebackText : String

/-- The observable Maya-side state the embedded code manipulates:

* `disabledMenu`: whether the `"TankMenuDisabled"` menu exists;
* `tankMenu`: whether the engine's own `"TankMenu"` menu exists
  (created by `MayaEngine.post_app_init`, src line 196, deleted by
  `MayaEngine.destroy_engine`, src line 206, and by
  `create_tank_disabled_menu`, src line 119);
* `currentEngine`: the live engine and its bound context
  (`tank.platform.current_engine()`, src line 38) — the framework holds
  at most one;
* `openCbs` / `saveCbs`: how many one-shot `scriptJob` registrations for
  the `SceneOpened` / `SceneSaved` events are currently armed
  (registered at src lines 84-85 and 185-186, each consumed when it
  fires because of `runOnce=True`). -/
structure MayaState (Ctx : Type) where
  disabledMenu : Bool
  tankMenu : Bool
  currentEngine : Option Ctx
  openCbs : Nat
  saveCbs : Nat
deriving DecidableEq

/-- Observable events emitted during one run of the transition controller,
in program order. -/
inductive Event (Ctx : Type) where
  | deleteDisabledMenu
  | deleteTankMenu
  | createDisabledMenu
  | displayInfo (msg : String)
  | displayError (kind : String) (msg : String) (tb : String)
  | logDebug (msg : String)
  | destroyEngine (ctx : Ctx)
  | engineStarted (ctx : Ctx)
  | registerCallback (event : String)
deriving DecidableEq

/-- `create_tank_disabled_menu` (src lines 114-123): delete the
`"TankMenu"` menu if it exists, then create the `"TankMenuDisabled"`
menu with its "Tank is disabled." item. -/
def create_tank_disabled_menu {Ctx : Type}
    (s : MayaState Ctx) : MayaState Ctx × List (Event Ctx) :=
  if s.tankMenu then
    ({ s with tankMenu := false, disabledMenu := true },
     [Event.deleteTankMenu, Event.createDisabledMenu])
  else
    ({ s with disabledMenu := true }, [Event.createDisabledMenu])

/-- Src lines 40-42: `if pm.menu("TankMenuDisabled", exists=True):
pm.deleteUI("TankMenuDisabled")` — the unconditional reset of the
disabled menu at the top of the callback. -/
def reset_disabled_menu {Ctx : Type}
    (s : MayaState Ctx) : MayaState Ctx × List (Event Ctx) :=
  if s.disabledMenu then
    ({ s with disabledMenu := false }, [Event.deleteDisabledMenu])
  else
    (s, [])

/-- Src lines 68-73: `if current_engine: ... current_engine.destroy()`.
`destroy` is the framework teardown; per the Session contract it clears
the current engine and releases the engine's UI affordance
(`MayaEngine.destroy_engine`, src line 206, deletes the menu handle).
The three `log_debug` calls at src lines 69-71 precede it. -/
def destroy_step {Ctx : Type}
    (s : MayaState Ctx) : MayaState Ctx × List (Event Ctx) :=
  match s.currentEngine with
  | some oldCtx =>
      ({ s with currentEngine := none, tankMenu := false },
       [Event.logDebug "Ready to switch to context because of scene event !",
        Event.logDebug "Prev context: %s",
        Event.logDebug "New context: %s",
        Event.destroyEngine oldCtx])
  | none => (s, [])

/-- The body of `on_scene_event_cb` inside the outer `try` (src lines
38-87).  Returns the state and trace accumulated so far, plus the
exception (if any) escaping to the outer `except Exception` handler.

Inner handlers are faithful to the source: only a `tank.TankError` from
`tank_from_path` is caught at src line 55, only a
`tank.TankEngineInitError` from `start_engine` is caught at src line 78;
`context_from_path` (src line 61) is outside both inner `try` blocks.
On successful `start_engine`, the new engine's `init_engine` registers
both one-shot callbacks (src lines 184-186) and `post_app_init` creates
the `"TankMenu"` menu (src line 196, interactive mode). -/
def scene_event_body {Ctx : Type} [DecidableEq Ctx] (env : Env Ctx)
    (prevCtx : Ctx) (s0 : MayaState Ctx) :
    MayaState Ctx × List (Event Ctx) × Option PyExc :=
  let current_engine := s0.currentEngine
  let step1 := reset_disabled_menu s0
  let s1 := step1.1
  let e1 := step1.2
  if env.sceneName = "" then
    (s1, e1, none)
  else
    match env.tankFromPath with
    | .error (.tankError m) =>
        let step2 := create_tank_disabled_menu s1
        (step2.1,
         e1 ++ Event.displayInfo ("Tank Engine cannot be started: " ++ m)
            :: step2.2,
         none)
    | .error e => (s1, e1, some e)
    | .ok _ =>
        match env.contextFromPath with
        | .error e => (s1, e1, some e)
        | .ok ctx =>
            if current_engine.isSome ∧ ctx = prevCtx then
              (s1, e1, none)
            else
              let step2 := destroy_step s1
              let s2 := step2.1
              let e2 := e1 ++ step2.2
              match env.startEngine with
              | .ok _ =>
                  ({ s2 with currentEngine := some ctx, tankMenu := true,
                             openCbs := s2.openCbs + 1,
                             saveCbs := s2.saveCbs + 1 },
                   e2 ++ [Event.engineStarted ctx,
                          Event.registerCallback "SceneOpened",
                          Event.registerCallback "SceneSaved",
                          Event.logDebug "Launched new engine for context!"],
                   none)
              | .error (.tankEngineInitError m) =>
                  let step3 := create_tank_disabled_menu s2
                  ({ step3.1 with openCbs := step3.1.openCbs + 1,
                                  saveCbs := step3.1.saveCbs + 1 },
                   e2 ++ Event.displayInfo
                           ("Tank Engine cannot be started: " ++ m)
                      :: step3.2
                      ++ [Event.registerCallback "SceneOpened",
                          Event.registerCallback "SceneSaved"],
                   none)
              | .error e => (s2, e2, some e)

/-- `on_scene_event_cb` (src lines 28-97): the body wrapped in the outer
`try ... except Exception` (src lines 89-97), which formats the escaped
exception's type, message and traceback into a `displayError` report and
performs no further state change. -/
def on_scene_event_cb {Ctx : Type} [DecidableEq Ctx] (env : Env Ctx)
    (prevCtx : Ctx) (s0 : MayaState Ctx) :
    MayaState Ctx × List (Event Ctx) :=
  match scene_event_body env prevCtx s0 with
  | (s, evs, none) => (s, evs)
  | (s, evs, some e) =>
      (s, evs ++ [Event.displayError e.kindName e.message env.tracebackText])

/-- Number of live engine sessions (the framework's current-engine slot
holds at most one). -/
def sessionCount {Ctx : Type} (s : MayaState Ctx) : Nat :=
  if s.currentEngine.isSome then 1 else 0

/-- Number of rendered disabled markers (the `"TankMenuDisabled"` menu is
a singleton by name). -/
def markerCount {Ctx : Type} (s : MayaState Ctx) : Nat :=
  if s.disabledMenu then 1 else 0

/-- A scene event firing: a `runOnce=True` scriptJob is consumed by the
host when its event fires, and then the callback runs.  `fire_open_event`
is the firing of a `SceneOpened` job (so `s.openCbs` must be positive for
anything to happen). -/
def fire_open_event {Ctx : Type} [DecidableEq Ctx] (env : Env Ctx)
    (prevCtx : Ctx) (s : MayaState Ctx) :
    MayaState Ctx × List (Event Ctx) :=
  on_scene_event_cb env prevCtx { s with openCbs := s.openCbs - 1 }

/-!
The `MayaEngine` synchronous job queue (src lines 307-362).

A keyword-argument dictionary is a `Dict` (an ordered association list,
as Python dicts preserve insertion order).  Because `execute_queue`
mutates the very dictionary object the caller passed to `add_to_queue`
(src lines 315, 352-354 store and update it by reference), dictionaries
live in a heap (`List Dict`) and queue items hold a heap index.

A queued callable is modelled by its observable behaviour: the sequence
of absolute percentages it passes to its `progress_callback` keyword
argument, and whether it finally raises.
-/

/-- A value stored under a keyword argument: the engine's bound
`self.report_progress` method, or some caller-supplied value. -/
inductive KwVal where
  | engineReportProgress
  | userVal (n : Nat)
deriving DecidableEq, Repr

/-- A Python keyword-argument dictionary. -/
def Dict : Type := List (String × KwVal)

/-- `d[k] = v` on a Python dict: replace the binding in place if the key
is present, otherwise append it. -/
def dict_set : Dict → String → KwVal → Dict
  | [], k, v => [(k, v)]
  | (k', v') :: rest, k, v =>
      if k' = k then (k, v) :: rest else (k', v') :: dict_set rest k v

/-- Behaviour of a queued callable: the absolute percentages it reports
through its `progress_callback`, then whether it raises. -/
structure MethodBehavior where
  reports : List Int
  fails : Bool
deriving DecidableEq, Repr

/-- A queue item, the dict `qi` built by `add_to_queue` (src lines
312-315): `{"name": name, "method": method, "args": args}`, where `args`
is a reference into the dict heap. -/
structure QItem where
  name : String
  method : MethodBehavior
  args : Nat
deriving DecidableEq, Repr

/-- `add_to_queue` (src lines 307-316): appends the item to the tail of
`self._queue`. -/
def add_to_queue (queue : List QItem) (name : String)
    (method : MethodBehavior) (args : Nat) : List QItem :=
  queue ++ [{ name := name, method := method, args := args }]

/-- Observable events of the queue drain loop. -/
inductive QEvent where
  | beginProgress (status : String)
  | invoked (name : String)
  | step (delta : Int)
  | userCallback (percent : Int)
  | logException (name : String)
  | endProgress
deriving DecidableEq, Repr

/-- `report_progress` (src lines 318-326): convert the absolute `percent`
to a delta against `self._current_progress`, step the Maya progress bar
by that delta, store `percent` as the new `self._current_progress`.
Returns the new `_current_progress` and the progress-bar step event. -/
def report_progress (current_progress : Int) (percent : Int) :
    Int × QEvent :=
  (percent, QEvent.step (percent - current_progress))

/-- Run a callable's sequence of `progress_callback(p)` calls against the
callback value found in its kwargs: the engine's `report_progress` steps
the progress bar, a caller-supplied value is just invoked. -/
def run_reports (cb : KwVal) : List Int → Int → Int × List QEvent
  | [], cur => (cur, [])
  | p :: ps, cur =>
      match cb with
      | .engineReportProgress =>
          let this := report_progress cur p
          let rest := run_reports cb ps this.1
          (rest.1, this.2 :: rest.2)
      | .userVal _ =>
          let rest := run_reports cb ps cur
          (rest.1, QEvent.userCallback p :: rest.2)

/-- The drain loop of `execute_queue` (src lines 336-362), structured on
the queue list (`self._queue = self._queue[1:]` pops the head each
iteration; nothing appends during the drain).  Per item: begin the
progress bar with the item's name (src lines 343-347), reset
`_current_progress` to 0 (src line 348), force-add
`kwargs["progress_callback"] = self.report_progress` into the stored
kwargs dict (src lines 352-354, mutating the heap), invoke the method
with those kwargs (src line 356), on any exception log it and continue
(src lines 357-360), and in all cases end the progress bar (src lines
361-362). -/
def execute_queue_loop : List QItem → List Dict → List Dict × List QEvent
  | [], heap => (heap, [])
  | item :: rest, heap =>
      let d1 := dict_set (heap.getD item.args []) "progress_callback"
                  KwVal.engineReportProgress
      let heap1 := heap.set item.args d1
      let cb := (List.lookup "progress_callback" d1).getD (KwVal.userVal 0)
      let run := run_reports cb item.method.reports 0
      let tail := execute_queue_loop rest heap1
      (tail.1,
       QEvent.beginProgress item.name :: QEvent.invoked item.name :: run.2
         ++ (if item.method.fails then [QEvent.logException item.name]
             else [])
         ++ QEvent.endProgress :: tail.2)

/-- `execute_queue` (src lines 328-362): drain the whole queue against
the kwargs heap, returning the final heap and the event trace.  (The
initial `_queue` is the first argument; the engine's `_queue` is empty
afterwards.) -/
def execute_queue (queue : List QItem) (heap : List Dict) :
    List Dict × List QEvent :=
  execute_queue_loop queue heap

/-- The progress-bar step events produced by reporting the absolute
percentages `rs` in order, starting from stored value `cur`: each step
is the delta between consecutive absolute values. -/
def delta_steps : List Int → Int → List QEvent
  | [], _ => []
  | p :: ps, cur => QEvent.step (p - cur) :: delta_steps ps p

/-- The full event block of one drained item: begin, invoke, the delta
steps of its reports from 0, the exception log if it fails, end. -/
def item_trace (it : QItem) : List QEvent :=
  QEvent.beginProgress it.name :: QEvent.invoked it.name
    :: delta_steps it.method.reports 0
    ++ (if it.method.fails then [QEvent.logException it.name] else [])
    ++ [QEvent.endProgress]

/-!  Theorems about the transition controller.  -/

/-- Number of `registerCallback` events in a trace. -/
def countRegistrations {Ctx : Type} (t : List (Event Ctx)) : Nat :=
  (t.filter fun e => match e with
    | Event.registerCallback _ => true
    | _ => false).length

/-- C2 (amended): on a lifecycle event whose artifact has no location
(`pm.sceneName() == ""`), no resolution is attempted and the Session is
left exactly as-is, but a pre-existing Disabled Marker is deleted by the
unconditional reset at the top of the callback (src lines 40-42) and is
not recreated; the only possible effect is that deletion. -/
theorem unsaved_scene_frame {Ctx : Type} [DecidableEq Ctx]
    (env : Env Ctx) (p : Ctx) (s0 : MayaState Ctx)
    (hScene : env.sceneName = "") :
    on_scene_event_cb env p s0 =
      ({ s0 with disabledMenu := false },
       if s0.disabledMenu then [Event.deleteDisabledMenu] else []) := by
  obtain ⟨d, t, ce, oc, sc⟩ := s0
  unfold on_scene_event_cb scene_event_body reset_disabled_menu
  cases d <;> simp [hScene]

/-- Witness for `unsaved_scene_frame` at a concrete input. -/
theorem unsaved_scene_frame_witness :
    (({ sceneName := "", tankFromPath := .ok (), contextFromPath := .ok 0,
        startEngine := .ok (), tracebackText := "" } : Env Nat).sceneName
      = "") ∧
    on_scene_event_cb
      ({ sceneName := "", tankFromPath := .ok (), contextFromPath := .ok 0,
         startEngine := .ok (), tracebackText := "" } : Env Nat) 0
      { disabledMenu := true, tankMenu := false, currentEngine := some 4,
        openCbs := 1, saveCbs := 1 } =
      ({ disabledMenu := false, tankMenu := false, currentEngine := some 4,
         openCbs := 1, saveCbs := 1 },
       [Event.deleteDisabledMenu]) :=
  ⟨rfl, unsaved_scene_frame _ 0 _ rfl⟩

/-- C2 counterexample: from the Disabled state (marker rendered, no
session) an unsaved-document event does *not* leave the prior state
as-is: the Disabled Marker that existed before the event is gone
afterwards. -/
theorem unsaved_scene_marker_cex :
    (({ disabledMenu := true, tankMenu := false, currentEngine := none,
        openCbs := 1, saveCbs := 1 } : MayaState Nat)).disabledMenu = true ∧
    (on_scene_event_cb
      ({ sceneName := "", tankFromPath := .ok (), contextFromPath := .ok 0,
         startEngine := .ok (), tracebackText := "" } : Env Nat) 0
      { disabledMenu := true, tankMenu := false, currentEngine := none,
        openCbs := 1, saveCbs := 1 }).1.disabledMenu = false :=
  ⟨rfl, rfl⟩

/-- C5: when the newly resolved context equals `prev_context` and an
engine is currently active, the callback returns at the short-circuit
(src lines 65-66) without destroying the active engine and without
starting a new one: the final state keeps the engine, and the trace
holds at most the disabled-menu reset. -/
theorem unchanged_context_noop {Ctx : Type} [DecidableEq Ctx]
    (env : Env Ctx) (p c : Ctx) (s0 : MayaState Ctx)
    (hEng : s0.currentEngine = some c)
    (hScene : env.sceneName ≠ "")
    (hTk : env.tankFromPath = .ok ())
    (hCtx : env.contextFromPath = .ok p) :
    on_scene_event_cb env p s0 =
      ({ s0 with disabledMenu := false },
       if s0.disabledMenu then [Event.deleteDisabledMenu] else []) := by
  obtain ⟨d, t, ce, oc, sc⟩ := s0
  unfold on_scene_event_cb scene_event_body reset_disabled_menu
  cases d <;> simp_all [hScene, hTk, hCtx]

/-- Witness for `unchanged_context_noop` at a concrete input. -/
theorem unchanged_context_noop_witness :
    (({ disabledMenu := false, tankMenu := true, currentEngine := some 5,
        openCbs := 1, saveCbs := 1 } : MayaState Nat)).currentEngine
      = some 5 ∧
    on_scene_event_cb
      ({ sceneName := "/proj/shots/a.ma", tankFromPath := .ok (),
         contextFromPath := .ok 5, startEngine := .ok (),
         tracebackText := "" } : Env Nat) 5
      { disabledMenu := false, tankMenu := true, currentEngine := some 5,
        openCbs := 1, saveCbs := 1 } =
      ({ disabledMenu := false, tankMenu := true, currentEngine := some 5,
         openCbs := 1, saveCbs := 1 }, []) :=
  ⟨rfl, unchanged_context_noop _ 5 5 _ rfl (by decide) rfl rfl⟩

/-- C6 (amended): when obtaining the pipeline handle fails —
`tank.tank_from_path` raises a `tank.TankError` (src lines 53-59) — the
callback displays the info message, renders the Disabled Marker, leaves
the current engine untouched and returns normally with no error report;
a failure of the Context Resolver (`tk.context_from_path`, src line 61)
is instead caught by the generic top-level handler and reported on the
error channel without rendering the Marker (see the counterexample). -/
theorem tank_error_renders_disabled_menu {Ctx : Type} [DecidableEq Ctx]
    (env : Env Ctx) (p : Ctx) (s0 : MayaState Ctx) (m : String)
    (hScene : env.sceneName ≠ "")
    (hTk : env.tankFromPath = .error (.tankError m)) :
    on_scene_event_cb env p s0 =
      ((create_tank_disabled_menu (reset_disabled_menu s0).1).1,
       (reset_disabled_menu s0).2
         ++ Event.displayInfo ("Tank Engine cannot be started: " ++ m)
         :: (create_tank_disabled_menu (reset_disabled_menu s0).1).2) ∧
    (on_scene_event_cb env p s0).1.disabledMenu = true ∧
    (on_scene_event_cb env p s0).1.currentEngine = s0.currentEngine ∧
    ∀ k msg tb, Event.displayError k msg tb ∉ (on_scene_event_cb env p s0).2 := by
  obtain ⟨d, t, ce, oc, sc⟩ := s0
  unfold on_scene_event_cb scene_event_body reset_disabled_menu
    create_tank_disabled_menu
  cases d <;> cases t <;> simp_all [hScene, hTk]

/-- Witness for `tank_error_renders_disabled_menu` at a concrete input:
a live session opens a file in no recognizable pipeline installation. -/
theorem tank_error_renders_disabled_menu_witness :
    (({ sceneName := "/elsewhere/b.ma",
        tankFromPath := .error (.tankError "not recognized"),
        contextFromPath := .ok 0, startEngine := .ok (),
        tracebackText := "" } : Env Nat).sceneName ≠ "") ∧
    ((on_scene_event_cb
        ({ sceneName := "/elsewhere/b.ma",
           tankFromPath := .error (.tankError "not recognized"),
           contextFromPath := .ok 0, startEngine := .ok (),
           tracebackText := "" } : Env Nat) 5
        { disabledMenu := false, tankMenu := true, currentEngine := some 5,
          openCbs := 1, saveCbs := 1 }).1.disabledMenu = true ∧
     (on_scene_event_cb
        ({ sceneName := "/elsewhere/b.ma",
           tankFromPath := .error (.tankError "not recognized"),
           contextFromPath := .ok 0, startEngine := .ok (),
           tracebackText := "" } : Env Nat) 5
        { disabledMenu := false, tankMenu := true, currentEngine := some 5,
          openCbs := 1, saveCbs := 1 }).1.currentEngine = some 5) :=
  ⟨by decide,
   ((tank_error_renders_disabled_menu _ 5
       { disabledMenu := false, tankMenu := true, currentEngine := some 5,
         openCbs := 1, saveCbs := 1 } "not recognized"
       (by decide) rfl).2.1),
   ((tank_error_renders_disabled_menu _ 5
       { disabledMenu := false, tankMenu := true, currentEngine := some 5,
         openCbs := 1, saveCbs := 1 } "not recognized"
       (by decide) rfl).2.2.1)⟩

/-- C6 counterexample: a Context Resolver failure
(`tk.context_from_path` raising a `tank.TankError`) does *not* render
the Disabled Marker as the claim states: the call sits outside the
inner `try` (src lines 53-61), so its error reaches the generic
top-level handler, which reports it on the error channel; no Marker
exists afterwards and no `createDisabledMenu` event is emitted. -/
theorem resolver_error_no_disabled_menu_cex :
    (on_scene_event_cb
      ({ sceneName := "/proj/shots/a.ma", tankFromPath := .ok (),
         contextFromPath := .error (.tankError "no context for path"),
         startEngine := .ok (), tracebackText := "tb" } : Env Nat) 5
      { disabledMenu := false, tankMenu := true, currentEngine := some 5,
        openCbs := 1, saveCbs := 1 }).1.disabledMenu = false ∧
    (on_scene_event_cb
      ({ sceneName := "/proj/shots/a.ma", tankFromPath := .ok (),
         contextFromPath := .error (.tankError "no context for path"),
         startEngine := .ok (), tracebackText := "tb" } : Env Nat) 5
      { disabledMenu := false, tankMenu := true, currentEngine := some 5,
        openCbs := 1, saveCbs := 1 }).2 =
      [Event.displayError "tank.TankError" "no context for path" "tb"] :=
  ⟨rfl, rfl⟩

/-- C3 (code bug): the one-shot listeners are not re-registered on the
early-return paths.  Scenario one: a `SceneOpened` firing (consuming the
one-shot job) that resolves to the unchanged context returns at the
short-circuit with zero `SceneOpened` registrations left and no
`registerCallback` event.  Scenario two: a firing whose
`tank_from_path` fails likewise ends with zero `SceneOpened`
registrations — even though the disabled dialog it renders tells the
user to "Try opening another file". -/
theorem listener_not_rearmed :
    ((fire_open_event
        ({ sceneName := "/proj/shots/a.ma", tankFromPath := .ok (),
           contextFromPath := .ok 5, startEngine := .ok (),
           tracebackText := "" } : Env Nat) 5
        { disabledMenu := false, tankMenu := true, currentEngine := some 5,
          openCbs := 1, saveCbs := 1 }).1.openCbs = 0 ∧
     countRegistrations
       (fire_open_event
         ({ sceneName := "/proj/shots/a.ma", tankFromPath := .ok (),
            contextFromPath := .ok 5, startEngine := .ok (),
            tracebackText := "" } : Env Nat) 5
         { disabledMenu := false, tankMenu := true, currentEngine := some 5,
           openCbs := 1, saveCbs := 1 }).2 = 0) ∧
    ((fire_open_event
        ({ sceneName := "/elsewhere/b.ma",
           tankFromPath := .error (.tankError "not recognized"),
           contextFromPath := .ok 0, startEngine := .ok (),
           tracebackText := "" } : Env Nat) 5
        { disabledMenu := false, tankMenu := true, currentEngine := some 5,
          openCbs := 1, saveCbs := 1 }).1.openCbs = 0 ∧
     countRegistrations
       (fire_open_event
         ({ sceneName := "/elsewhere/b.ma",
            tankFromPath := .error (.tankError "not recognized"),
            contextFromPath := .ok 0, startEngine := .ok (),
            tracebackText := "" } : Env Nat) 5
         { disabledMenu := false, tankMenu := true, currentEngine := some 5,
           openCbs := 1, saveCbs := 1 }).2 = 0) :=
  ⟨⟨rfl, rfl⟩, ⟨rfl, rfl⟩⟩

/-- C1 (amended): starting from a valid state (live sessions plus
disabled markers exactly 1), the invariant holds again when the handler
returns, for every event whose resolution succeeds (pipeline handle
obtained and context resolved) and whose outcome is the unchanged-context
no-op, a successful rebuild, or a rebuild failing with an
engine-initialization error.  (It does not hold on the other paths: the
unsaved-document and unexpected-exception paths can end with neither a
session nor a marker, and the pipeline-handle-failure path renders the
marker without destroying a live session, ending with both.) -/
theorem transition_invariant_on_resolved_events {Ctx : Type}
    [DecidableEq Ctx] (env : Env Ctx) (p c : Ctx) (s0 : MayaState Ctx)
    (hStart : sessionCount s0 + markerCount s0 = 1)
    (hScene : env.sceneName ≠ "")
    (hTk : env.tankFromPath = .ok ())
    (hCtx : env.contextFromPath = .ok c)
    (hEng : env.startEngine = .ok () ∨
            ∃ m, env.startEngine = .error (.tankEngineInitError m)) :
    sessionCount (on_scene_event_cb env p s0).1
      + markerCount (on_scene_event_cb env p s0).1 = 1 := by
  obtain ⟨d, t, ce, oc, sc⟩ := s0
  unfold on_scene_event_cb scene_event_body reset_disabled_menu
    destroy_step create_tank_disabled_menu
  rcases hEng with h | ⟨m, h⟩ <;> cases ce <;> cases d <;> cases t <;>
    by_cases hcp : c = p <;>
    simp_all [hScene, hTk, hCtx, h, sessionCount, markerCount]

/-- Witness for `transition_invariant_on_resolved_events` at a concrete
input: a rebuild from the Disabled state that fails with an
engine-initialization error ends with exactly the marker. -/
theorem transition_invariant_witness :
    (sessionCount ({ disabledMenu := true, tankMenu := false,
                     currentEngine := none, openCbs := 0,
                     saveCbs := 0 } : MayaState Nat)
      + markerCount ({ disabledMenu := true, tankMenu := false,
                       currentEngine := none, openCbs := 0,
                       saveCbs := 0 } : MayaState Nat) = 1) ∧
    sessionCount (on_scene_event_cb
        ({ sceneName := "/proj/shots/a.ma", tankFromPath := .ok (),
           contextFromPath := .ok 7,
           startEngine := .error (.tankEngineInitError "no engine"),
           tracebackText := "" } : Env Nat) 5
        { disabledMenu := true, tankMenu := false, currentEngine := none,
          openCbs := 0, saveCbs := 0 }).1
      + markerCount (on_scene_event_cb
        ({ sceneName := "/proj/shots/a.ma", tankFromPath := .ok (),
           contextFromPath := .ok 7,
           startEngine := .error (.tankEngineInitError "no engine"),
           tracebackText := "" } : Env Nat) 5
        { disabledMenu := true, tankMenu := false, currentEngine := none,
          openCbs := 0, saveCbs := 0 }).1 = 1 :=
  ⟨rfl,
   transition_invariant_on_resolved_events _ 5 7 _ rfl (by decide) rfl rfl
     (Or.inr ⟨"no engine", rfl⟩)⟩

/-- C1 counterexample: the invariant is violated at a handler return.
Before the event: Disabled state, sessions + markers = 1.  The event
fires with an unsaved scene (`pm.sceneName() == ""`): the callback
deletes the marker at entry and returns, ending with sessions + markers
= 0 — neither an active session nor a rendered marker. -/
theorem transition_invariant_cex :
    (sessionCount ({ disabledMenu := true, tankMenu := false,
                     currentEngine := none, openCbs := 1,
                     saveCbs := 1 } : MayaState Nat)
      + markerCount ({ disabledMenu := true, tankMenu := false,
                       currentEngine := none, openCbs := 1,
                       saveCbs := 1 } : MayaState Nat) = 1) ∧
    sessionCount (on_scene_event_cb
        ({ sceneName := "", tankFromPath := .ok (), contextFromPath := .ok 0,
           startEngine := .ok (), tracebackText := "" } : Env Nat) 0
        { disabledMenu := true, tankMenu := false, currentEngine := none,
          openCbs := 1, saveCbs := 1 }).1
      + markerCount (on_scene_event_cb
        ({ sceneName := "", tankFromPath := .ok (), contextFromPath := .ok 0,
           startEngine := .ok (), tracebackText := "" } : Env Nat) 0
        { disabledMenu := true, tankMenu := false, currentEngine := none,
          openCbs := 1, saveCbs := 1 }).1 = 0 :=
  ⟨rfl, rfl⟩

/-- C4: when a rebuild is decided while an engine is active — resolution
succeeds and the resolved context differs from `prev_context` — the old
engine's `destroy()` (src line 73) appears in the trace, and every
`engineStarted` event (the construction of the new engine, src line 77)
occurs strictly after it: no two engines are ever live simultaneously,
even transiently. -/
theorem destroy_before_start {Ctx : Type} [DecidableEq Ctx]
    (env : Env Ctx) (p c ctx : Ctx) (s0 : MayaState Ctx)
    (hEng : s0.currentEngine = some c)
    (hScene : env.sceneName ≠ "")
    (hTk : env.tankFromPath = .ok ())
    (hCtx : env.contextFromPath = .ok ctx)
    (hNe : ctx ≠ p) :
    ∃ l1 l2, (on_scene_event_cb env p s0).2
        = l1 ++ Event.destroyEngine c :: l2 ∧
      ∀ x, Event.engineStarted x ∉ l1 := by
  obtain ⟨d, t, ce, oc, sc⟩ := s0
  simp only [MayaState.currentEngine] at hEng
  subst hEng
  unfold on_scene_event_cb scene_event_body reset_disabled_menu destroy_step
  rcases hse : env.startEngine with e | u
  · cases e with
    | tankError m =>
        cases d
        · exact ⟨[Event.logDebug "Ready to switch to context because of scene event !",
                  Event.logDebug "Prev context: %s",
                  Event.logDebug "New context: %s"],
                 [Event.displayError "tank.TankError" m env.tracebackText],
                 by simp_all [hScene, hTk, hCtx, hNe, PyExc.kindName, PyExc.message],
                 by intro x; simp⟩
        · exact ⟨[Event.deleteDisabledMenu,
                  Event.logDebug "Ready to switch to context because of scene event !",
                  Event.logDebug "Prev context: %s",
                  Event.logDebug "New context: %s"],
                 [Event.displayError "tank.TankError" m env.tracebackText],
                 by simp_all [hScene, hTk, hCtx, hNe, PyExc.kindName, PyExc.message],
                 by intro x; simp⟩
    | tankEngineInitError m =>
        cases d
        · exact ⟨[Event.logDebug "Ready to switch to context because of scene event !",
                  Event.logDebug "Prev context: %s",
                  Event.logDebug "New context: %s"],
                 [Event.displayInfo ("Tank Engine cannot be started: " ++ m),
                  Event.createDisabledMenu,
                  Event.registerCallback "SceneOpened",
                  Event.registerCallback "SceneSaved"],
                 by simp_all [hScene, hTk, hCtx, hNe, create_tank_disabled_menu],
                 by intro x; simp⟩
        · exact ⟨[Event.deleteDisabledMenu,
                  Event.logDebug "Ready to switch to context because of scene event !",
                  Event.logDebug "Prev context: %s",
                  Event.logDebug "New context: %s"],
                 [Event.displayInfo ("Tank Engine cannot be started: " ++ m),
                  Event.createDisabledMenu,
                  Event.registerCallback "SceneOpened",
                  Event.registerCallback "SceneSaved"],
                 by simp_all [hScene, hTk, hCtx, hNe, create_tank_disabled_menu],
                 by intro x; simp⟩
    | other k m =>
        cases d
        · exact ⟨[Event.logDebug "Ready to switch to context because of scene event !",
                  Event.logDebug "Prev context: %s",
                  Event.logDebug "New context: %s"],
                 [Event.displayError k m env.tracebackText],
                 by simp_all [hScene, hTk, hCtx, hNe, PyExc.kindName, PyExc.message],
                 by intro x; simp⟩
        · exact ⟨[Event.deleteDisabledMenu,
                  Event.logDebug "Ready to switch to context because of scene event !",
                  Event.logDebug "Prev context: %s",
                  Event.logDebug "New context: %s"],
                 [Event.displayError k m env.tracebackText],
                 by simp_all [hScene, hTk, hCtx, hNe, PyExc.kindName, PyExc.message],
                 by intro x; simp⟩
  · cases d
    · exact ⟨[Event.logDebug "Ready to switch to context because of scene event !",
              Event.logDebug "Prev context: %s",
              Event.logDebug "New context: %s"],
             [Event.engineStarted ctx,
              Event.registerCallback "SceneOpened",
              Event.registerCallback "SceneSaved",
              Event.logDebug "Launched new engine for context!"],
             by simp_all [hScene, hTk, hCtx, hNe],
             by intro x; simp⟩
    · exact ⟨[Event.deleteDisabledMenu,
              Event.logDebug "Ready to switch to context because of scene event !",
              Event.logDebug "Prev context: %s",
              Event.logDebug "New context: %s"],
             [Event.engineStarted ctx,
              Event.registerCallback "SceneOpened",
              Event.registerCallback "SceneSaved",
              Event.logDebug "Launched new engine for context!"],
             by simp_all [hScene, hTk, hCtx, hNe],
             by intro x; simp⟩

/-- Witness for `destroy_before_start` at a concrete input: a live
session bound to context 1 sees a scene resolving to context 2. -/
theorem destroy_before_start_witness :
    (({ disabledMenu := false, tankMenu := true, currentEngine := some 1,
        openCbs := 1, saveCbs := 1 } : MayaState Nat)).currentEngine
      = some 1 ∧
    (2 : Nat) ≠ 5 ∧
    ∃ l1 l2,
      (on_scene_event_cb
        ({ sceneName := "/other/p2.ma", tankFromPath := .ok (),
           contextFromPath := .ok 2, startEngine := .ok (),
           tracebackText := "" } : Env Nat) 5
        { disabledMenu := false, tankMenu := true, currentEngine := some 1,
          openCbs := 1, saveCbs := 1 }).2
        = l1 ++ Event.destroyEngine 1 :: l2 ∧
      ∀ x, Event.engineStarted x ∉ l1 :=
  ⟨rfl, by decide,
   destroy_before_start _ 5 1 2
     { disabledMenu := false, tankMenu := true, currentEngine := some 1,
       openCbs := 1, saveCbs := 1 }
     rfl (by decide) rfl rfl (by decide)⟩

/-- C7: an exception of any kind other than the two expected ones —
raised at any of the three fallible call sites — escapes the inner
handlers, is caught by the outer `except Exception` (src lines 89-97)
and never propagates: it is reported as a single `displayError` carrying
the exception's kind, its message and the captured traceback text, and
the final state is exactly the state at the moment of the raise (no
further state change). -/
theorem unexpected_exception_reported {Ctx : Type} [DecidableEq Ctx]
    (env : Env Ctx) (p : Ctx) (s0 : MayaState Ctx) (k m : String)
    (hScene : env.sceneName ≠ "") :
    (env.tankFromPath = .error (.other k m) →
       on_scene_event_cb env p s0 =
         ((reset_disabled_menu s0).1,
          (reset_disabled_menu s0).2
            ++ [Event.displayError k m env.tracebackText])) ∧
    (∀ u, env.tankFromPath = .ok u →
     env.contextFromPath = .error (.other k m) →
       on_scene_event_cb env p s0 =
         ((reset_disabled_menu s0).1,
          (reset_disabled_menu s0).2
            ++ [Event.displayError k m env.tracebackText])) ∧
    (∀ u (c : Ctx), env.tankFromPath = .ok u →
     env.contextFromPath = .ok c →
     ¬(s0.currentEngine.isSome ∧ c = p) →
     env.startEngine = .error (.other k m) →
       on_scene_event_cb env p s0 =
         ((destroy_step (reset_disabled_menu s0).1).1,
          (reset_disabled_menu s0).2
            ++ (destroy_step (reset_disabled_menu s0).1).2
            ++ [Event.displayError k m env.tracebackText])) := by
  obtain ⟨d, t, ce, oc, sc⟩ := s0
  refine ⟨?_, ?_, ?_⟩
  · intro hTk
    unfold on_scene_event_cb scene_event_body reset_disabled_menu
    cases d <;> simp_all [hScene, PyExc.kindName, PyExc.message]
  · intro u hTk hCtx
    unfold on_scene_event_cb scene_event_body reset_disabled_menu
    cases d <;> simp_all [hScene, PyExc.kindName, PyExc.message]
  · intro u c hTk hCtx hNoop hSe
    unfold on_scene_event_cb scene_event_body reset_disabled_menu destroy_step
    cases d <;> cases ce <;>
      simp_all [hScene, PyExc.kindName, PyExc.message]

/-- Witness for `unexpected_exception_reported` at a concrete input: an
unexpected `IOError` from the Context Resolver is reported with its
kind, message and traceback, leaving the live session in place. -/
theorem unexpected_exception_reported_witness :
    (({ sceneName := "/proj/shots/a.ma", tankFromPath := .ok (),
        contextFromPath := .error (.other "exceptions.IOError" "disk gone"),
        startEngine := .ok (),
        tracebackText := "  File ..." } : Env Nat).sceneName ≠ "") ∧
    on_scene_event_cb
      ({ sceneName := "/proj/shots/a.ma", tankFromPath := .ok (),
         contextFromPath := .error (.other "exceptions.IOError" "disk gone"),
         startEngine := .ok (),
         tracebackText := "  File ..." } : Env Nat) 5
      { disabledMenu := false, tankMenu := true, currentEngine := some 5,
        openCbs := 1, saveCbs := 1 } =
      ({ disabledMenu := false, tankMenu := true, currentEngine := some 5,
         openCbs := 1, saveCbs := 1 },
       [Event.displayError "exceptions.IOError" "disk gone" "  File ..."]) :=
  ⟨by decide,
   (unexpected_exception_reported _ 5
     { disabledMenu := false, tankMenu := true, currentEngine := some 5,
       openCbs := 1, saveCbs := 1 }
     "exceptions.IOError" "disk gone" (by decide)).2.1 () rfl rfl⟩

/-!  Theorems about the job queue.  -/

/-- Assigning a key in a dict makes exactly that binding visible under
the key. -/
theorem lookup_dict_set (d : Dict) (k : String) (v : KwVal) :
    List.lookup k (dict_set d k v) = some v := by
  induction d with
  | nil => simp [dict_set, List.lookup]
  | cons kv rest ih =>
      obtain ⟨a, b⟩ := kv
      by_cases h : a = k
      · simp [dict_set, h, List.lookup_cons]
      · have h2 : (k == a) = false :=
          beq_eq_false_iff_ne.mpr (fun hh => h hh.symm)
        simp [dict_set, h, List.lookup_cons, h2, ih]

/-- Running a callable's reports against the engine's `report_progress`
produces exactly the consecutive-delta steps, and leaves the last
reported percent stored in `_current_progress`. -/
theorem run_reports_engine (rs : List Int) (cur : Int) :
    run_reports KwVal.engineReportProgress rs cur
      = (rs.getLastD cur, delta_steps rs cur) := by
  induction rs generalizing cur with
  | nil => simp [run_reports, delta_steps]
  | cons p ps ih =>
      simp only [run_reports, report_progress, delta_steps, ih,
                 List.getLastD_cons]

/-- The drain-loop trace is the concatenation of the per-item blocks,
in queue order, independent of the kwargs heap (the injected
`progress_callback` is always the engine's own). -/
theorem execute_queue_loop_trace (q : List QItem) (heap : List Dict) :
    (execute_queue_loop q heap).2 = (q.map item_trace).flatten := by
  induction q generalizing heap with
  | nil => simp [execute_queue_loop]
  | cons item rest ih =>
      simp [execute_queue_loop, lookup_dict_set, run_reports_engine,
            item_trace, ih]

/-- A `progress_callback` binding to the engine's `report_progress`
survives the rest of the drain: every later heap write either targets
another dict or rewrites the same binding. -/
theorem lookup_preserved (q : List QItem) :
    ∀ (heap : List Dict) (i : Nat),
      List.lookup "progress_callback" (heap.getD i [])
        = some KwVal.engineReportProgress →
      List.lookup "progress_callback" ((execute_queue_loop q heap).1.getD i [])
        = some KwVal.engineReportProgress := by
  induction q with
  | nil => intro heap i h; simpa [execute_queue_loop] using h
  | cons item rest ih =>
      intro heap i h
      simp only [execute_queue_loop]
      apply ih
      by_cases hij : item.args = i
      · subst hij
        by_cases hlen : item.args < heap.length
        · rw [List.getD_eq_getElem?_getD,
              List.getElem?_set_eq_of_lt _ hlen]
          simpa using lookup_dict_set _ _ _
        · rw [List.set_eq_of_length_le (Nat.le_of_not_lt hlen)]
          exact h
      · rwa [List.getD_eq_getElem?_getD, List.getElem?_set_ne hij,
             ← List.getD_eq_getElem?_getD]

/-- `delta_steps` only emits `step` events. -/
theorem userCallback_not_mem_delta_steps (rs : List Int) (cur p : Int) :
    QEvent.userCallback p ∉ delta_steps rs cur := by
  induction rs generalizing cur with
  | nil => simp [delta_steps]
  | cons r rest ih => simp [delta_steps, ih]

/-- An item's trace block never holds a user-callback invocation. -/
theorem userCallback_not_mem_item_trace (p : Int) (it : QItem) :
    QEvent.userCallback p ∉ item_trace it := by
  rcases it with ⟨n, ⟨rs, f⟩, a⟩
  unfold item_trace
  cases f <;> simp [userCallback_not_mem_delta_steps]

/-- C8: draining runs each queued item exactly once, in strict FIFO
order, and one item's failure neither skips its progress-bar teardown
nor the remaining items nor escapes `execute_queue`: the whole trace is
exactly the concatenation, in enqueue order, of each item's block —
begin progress, invocation, its progress steps, its exception log
exactly when its callable raises, end progress. -/
theorem execute_queue_fifo_isolated (q : List QItem) (heap : List Dict) :
    (execute_queue q heap).2 = (q.map item_trace).flatten :=
  execute_queue_loop_trace q heap

/-- C9: `report_progress` applies the delta against the last reported
value and stores the new absolute percent; the stored value starts at 0
for each item, so a single item reporting 0, then 40, then 100 yields
the incremental steps 0, 40 and 60 (shown for a queue of that one item,
whatever the heap, the item's kwargs and its final success or failure),
and in general the value stored after a report sequence is its last
element. -/
theorem report_progress_deltas :
    (∀ (heap : List Dict) (n : String) (a : Nat) (f : Bool),
      (execute_queue [{ name := n, method := { reports := [0, 40, 100],
                                               fails := f }, args := a }]
          heap).2
        = QEvent.beginProgress n :: QEvent.invoked n :: QEvent.step 0
            :: QEvent.step 40 :: QEvent.step 60
            :: ((if f then [QEvent.logException n] else [])
                ++ [QEvent.endProgress])) ∧
    (∀ (rs : List Int) (cur : Int),
      (run_reports KwVal.engineReportProgress rs cur).1 = rs.getLastD cur) := by
  constructor
  · intro heap n a f
    simp [execute_queue, execute_queue_loop, lookup_dict_set,
          run_reports_engine, delta_steps]
  · intro rs cur
    simp [run_reports_engine]

/-- C10: the drain loop force-writes `progress_callback` into the very
kwargs dictionary stored at enqueue time: after draining, every queued
item's dictionary (the caller's own object, mutated in place) carries
the engine's `report_progress` under that key — whatever the caller had
supplied there — and consequently no invocation ever runs a
caller-supplied progress callback. -/
theorem progress_callback_injection (q : List QItem) (heap : List Dict) :
    (∀ it ∈ q, it.args < heap.length →
       List.lookup "progress_callback" ((execute_queue q heap).1.getD it.args [])
         = some KwVal.engineReportProgress) ∧
    (∀ p : Int, QEvent.userCallback p ∉ (execute_queue q heap).2) := by
  constructor
  · induction q generalizing heap with
    | nil => intro it hit; exact absurd hit (List.not_mem_nil it)
    | cons item rest ih =>
        intro it hit hlen
        rcases List.mem_cons.mp hit with h | h
        · subst h
          simp only [execute_queue, execute_queue_loop]
          apply lookup_preserved
          rw [List.getD_eq_getElem?_getD, List.getElem?_set_eq_of_lt _ hlen]
          simpa using lookup_dict_set _ _ _
        · simp only [execute_queue, execute_queue_loop]
          have := ih (heap.set item.args
            (dict_set (heap.getD item.args []) "progress_callback"
              KwVal.engineReportProgress)) it h
          simp only [execute_queue] at this
          exact this (by simpa using hlen)
  · intro p
    rw [execute_queue, execute_queue_loop_trace]
    intro hmem
    rcases List.mem_flatten.mp hmem with ⟨l, hl, hpl⟩
    rcases List.mem_map.mp hl with ⟨it, _, rfl⟩
    exact userCallback_not_mem_item_trace p it hpl

/-- Witness for `progress_callback_injection` at a concrete input: the
caller enqueued kwargs `{"progress_callback": userVal 7}`; after the
drain the same dictionary holds the engine's `report_progress` instead,
and no user callback ever ran. -/
theorem progress_callback_injection_witness :
    (List.lookup "progress_callback"
       ([[("progress_callback", KwVal.userVal 7)]].getD 0 [])
      = some (KwVal.userVal 7)) ∧
    (List.lookup "progress_callback"
       ((execute_queue
           [{ name := "sync job", method := { reports := [50], fails := false },
              args := 0 }]
           [[("progress_callback", KwVal.userVal 7)]]).1.getD 0 [])
      = some KwVal.engineReportProgress) ∧
    (∀ p : Int, QEvent.userCallback p ∉
      (execute_queue
          [{ name := "sync job", method := { reports := [50], fails := false },
             args := 0 }]
          [[("progress_callback", KwVal.userVal 7)]]).2) :=
  ⟨rfl,
   (progress_callback_injection _ _).1
     { name := "sync job", method := { reports := [50], fails := false },
       args := 0 }
     (List.mem_singleton.mpr rfl) (by decide),
   (progress_callback_injection _ _).2⟩
